import Mathlib

/- Verification of the task protocol of the DexGraspVLA planner front end
(src/planner/dexgraspvla_planner.py, method DexGraspVLAPlanner.request_task):
prompt building, conversation assembly, and response decoding. -/

namespace DexGraspVLA

/-- Python values, as far as the planner manipulates them: the results of the
JSON-repair primitive and the values returned by request_task. -/
inductive PyValue where
  | none : PyValue
  | bool (b : Bool) : PyValue
  | int (n : Int) : PyValue
  | str (s : String) : PyValue
  | list (xs : List PyValue) : PyValue
  | dict (kvs : List (String × PyValue)) : PyValue

/-- A failure raised inside one of the external extraction primitives; such
an exception is distinct from every exception the planner itself raises and
propagates through request_task unchanged. -/
inductive PrimError where
  | failure (msg : String) : PrimError
deriving DecidableEq, Repr

/-- The failures request_task can raise, one constructor per raise site:
unknownTaskKind is the ValueError of line 170; malformedBoolean the
ValueErrors of lines 292 and 317; malformedList the ValueError of line 298;
malformedField the ValueError of line 306; keyError and typeError are the
exceptions Python itself raises for the dict subscript of line 302;
primitiveError wraps an exception raised inside an extraction primitive. -/
inductive PlannerError where
  | unknownTaskKind (taskName : String) : PlannerError
  | malformedBoolean (response : String) : PlannerError
  | malformedList : PlannerError
  | malformedField (got : PyValue) : PlannerError
  | keyError (key : String) : PlannerError
  | typeError : PlannerError
  | primitiveError (e : PrimError) : PlannerError

/-- Modelled from the spec: the text-to-structure primitives consumed by the
decoder (planner.utils.extract_list, planner.utils.parse_json, and
json_repair.loads), whose code is not under src/. Their contracts, from
spec section 6: extract_list, given arbitrary text containing a bracketed
list literal, returns the parsed sequence of strings and fails if no valid
list literal is found; parse_json locates the most plausible single JSON
object/array substring of the text and returns it as text, failing if no
such substring is findable; json_repair.loads returns a best-effort parsed
structured value, failing only on unsalvageable text. -/
structure Primitives where
  extract_list : String → Option (List String)
  parse_json : String → Except PrimError String
  json_repair_loads : String → Except PrimError PyValue

/-- Python f-string interpolation of an optional string: None interpolates as
the literal text "None". -/
def pyStr : Option String → String
  | Option.none => "None"
  | Option.some s => s

/-- Python str.lower for the ASCII range (the only range the decoder's
true/false search depends on). -/
def pyLower (s : String) : String :=
  String.mk (s.data.map Char.toLower)

/-- Whether the first character list is a prefix of the second. -/
def charsPrefix : List Char → List Char → Bool
  | [], _ => true
  | _ :: _, [] => false
  | a :: as, b :: bs => a == b && charsPrefix as bs

/-- Whether the first character list occurs contiguously inside the second. -/
def charsSub (needle : List Char) : List Char → Bool
  | [] => charsPrefix needle []
  | b :: bs => charsPrefix needle (b :: bs) || charsSub needle bs

/-- Python substring containment, the `needle in haystack` test. -/
def pyIn (needle haystack : String) : Bool :=
  charsSub needle.data haystack.data

/-- Python subscript v[key] with a string key: looks the key up in a dict,
raising KeyError when absent, and raises TypeError on any non-dict value. -/
def pyGetItem : PyValue → String → Except PlannerError PyValue
  | PyValue.dict kvs, k =>
    match kvs.find? (fun kv => kv.fst == k) with
    | Option.some kv => Except.ok kv.snd
    | Option.none => Except.error (PlannerError.keyError k)
  | _, _ => Except.error PlannerError.typeError

def prompt_classify_user_prompt (instruction : Option String) : String :=
  "\n            Analyze the following user prompt: " ++ pyStr instruction ++ "\n\n            User prompt types:\n            - Type I (return True): User prompts with any specific descriptions\n            Examples: \n            * Color-based: \"green objects\"\n            * Position-based: \"objects from the right\"\n            * Property-based: \"all cups\"\n            * Combination: \"the red cup on the left\"\n\n            - Type II (return False): Abstract prompts without any object descriptions\n            Examples: \"clear the table\", \"clean up\", \"remove everything\"\n\n            Please determine:\n            - Is this a Type I prompt? (True/False)\n            - Provide your reasoning\n\n            Return format:\n            True/False: your reasoning\n\n            Examples:\n            - \"grab the green cup\" -> True: Contains specific object (cup) and property (green)\n            - \"clear the table\" -> False: No specific object characteristics mentioned\n            "

def prompt_decompose_user_prompt (instruction : Option String) : String :=
  "\n            For user prompt: " ++ pyStr instruction ++ "\n            Process:\n            1. Analyze the user prompt and image together:\n            - Match user prompt descriptions with visible objects in the image\n            - If a description (e.g., \"green objects\") matches multiple objects, include all matching objects\n            - Verify each mentioned object actually exists in the image\n\n            2. Based on the robot arm\x27s position (right edge of the screen) and table layout\n            3. Determine the most efficient grasping sequence\n            4. Generate a reordered list of objects to grasp\n            \n            Requirements:\n            - Only include objects mentioned in the original user prompt\n            - Keep position information for each object\n            - Return as a list, ordered by grasping sequence\n\n            Expected output format:\n            [\"object with position 1\", \"object with position 2\", ...]\n            "

def prompt_generate_instruction (_instruction : Option String) : String :=
  "\n            Analyze the current desktop layout and select the most suitable object to grasp, considering the following factors:\n\n            Grasping Strategy:\n            1. The robotic arm is positioned on the far right (outside the frame)\n            2. Grasping Priority Order:\n               - Prioritize objects on the right to avoid knocking over other objects during later operations\n               - Then consider objects in the middle\n               - Finally, consider objects on the left\n            3. Accessibility Analysis:\n               - Relative positions between objects\n               - Potential obstacles\n               - Whether the grasping path might interfere with other objects\n\n            Please provide your response in the following JSON format:\n            \x7b\n                \"analysis\": \x7b\n                    \"priority_consideration\": \"Explanation of why this object has priority\",\n                    \"accessibility\": \"Analysis of object\x27s accessibility\",\n                    \"risk_assessment\": \"Potential risks in grasping this object\"\n                \x7d,\n                \"target\": \"A comprehensive description of the target object \n                (e.g., \x27the blue cube on the far right of the desktop, next to the red cylinder\x27)\"\n            \x7d\n\n            Ensure the output is in valid JSON format.\n            Note: The \x27target\x27 field should ONLY contain the object\x27s color, shape, and position in a natural, flowing sentence. Do not include any analysis or reasoning in this field.\n            "

def prompt_mark_bounding_box (instruction : Option String) : String :=
  "\n            Analyze the image and identify the best matching object with the description: " ++ pyStr instruction ++ ".\n            Instructions for object analysis:\n            1. Select ONE object that best matches the description\n            2. For the selected object, provide:\n            - A concise label, object name (3-4 words max)\n            - A detailed description (position, color, shape, context)\n            - Accurate bbox coordinates\n\n            Required JSON format with an example:\n            ```json\n            \x7b\n                \"bbox_2d\": [x1, y1, x2, y2],\n                \"label\": \"green cup\",  # Keep this very brief (3-4 words)\n                \"description\": \"A cylindrical green ceramic cup located on the right side of the wooden table, next to the laptop\"  # Detailed description\n            \x7d\n            ```\n\n            Critical requirements:\n            - Return EXACTLY ONE object\n            - \"label\": Must be brief (3-4 words) for quick reference\n            - \"description\": Must be detailed and include spatial context\n            - Use single JSON object format, not an array\n            - Ensure bbox coordinates are within image boundaries\n            "

def prompt_check_grasp_success (_instruction : Option String) : String :=
  "\n            Analyze the image and determine if the robotic arm has successfully grasped an object:\n            1. Observe the spatial relationship between the robotic hand and the object\n            2. Output format: explain your reasoning, then conclude with a boolean value (True=grasped, False=not grasped)\n            "

def prompt_check_instruction_complete (instruction : Option String) : String :=
  "\n            Please check whether " ++ pyStr instruction ++ " exists on the desktop. If it does not exist, output True; otherwise, output False.\n            "

def prompt_check_user_prompt_complete (_instruction : Option String) : String :=
  "\n            Please analyze the table in the image:\n\n            Requirements:\n            - Only detect physical objects with noticeable height/thickness (3D objects)\n            - Exclude from consideration:\n            * Flat items (papers, tablecloths, mats)\n            * Light projections\n            * Shadows\n            * Surface patterns or textures\n\n            Return format:\n            - True: if the table is empty of 3D objects\n            - False: if there are any 3D objects, followed by their names\n\n            Example responses:\n            True  (for empty table)\n            False: cup, bottle, plate  (for table with objects)\n            "

/-- Lines 30 to 170: the if/elif chain selecting the prompt template for a
task name, raising a ValueError for any task name outside the seven. -/
def buildPrompt (task_name : String) (instruction : Option String) :
    Except PlannerError String :=
  if task_name = "classify_user_prompt" then
    Except.ok (prompt_classify_user_prompt instruction)
  else if task_name = "decompose_user_prompt" then
    Except.ok (prompt_decompose_user_prompt instruction)
  else if task_name = "generate_instruction" then
    Except.ok (prompt_generate_instruction instruction)
  else if task_name = "mark_bounding_box" then
    Except.ok (prompt_mark_bounding_box instruction)
  else if task_name = "check_grasp_success" then
    Except.ok (prompt_check_grasp_success instruction)
  else if task_name = "check_instruction_complete" then
    Except.ok (prompt_check_instruction_complete instruction)
  else if task_name = "check_user_prompt_complete" then
    Except.ok (prompt_check_user_prompt_complete instruction)
  else
    Except.error (PlannerError.unknownTaskKind task_name)

/-- One content item of a chat message: a text block or an image attachment. -/
inductive ContentItem where
  | text (t : String) : ContentItem
  | image_url (url : String) : ContentItem
deriving DecidableEq, Repr

/-- One turn of the conversation sent to the completion service. -/
structure Message where
  role : String
  content : List ContentItem
deriving DecidableEq, Repr

/-- Lines 172 to 186: the fixed system turn followed by the user turn carrying
the prompt, with the image reference appended when present. -/
def buildMessages (prompt : String) (frame_path : Option String) : List Message :=
  [ { role := "system",
      content := [ContentItem.text "You are a helpful assistant."] },
    { role := "user",
      content := [ContentItem.text prompt] ++
        (match frame_path with
         | Option.some url => [ContentItem.image_url url]
         | Option.none => []) } ]

/-- Lines 283 to 317: decoding of the raw response by task name; the source
lower-cases the response once into response_lower before branching, written
here as pyLower response at each use site. The final else branch serves the
three remaining check tasks, an unknown task name having already raised
during prompt building. -/
def decode (prims : Primitives) (task_name response : String) :
    Except PlannerError PyValue :=
  if task_name = "classify_user_prompt" then
    if pyIn "true" (pyLower response) then Except.ok (PyValue.str "TypeI")
    else if pyIn "false" (pyLower response) then Except.ok (PyValue.str "TypeII")
    else Except.error (PlannerError.malformedBoolean response)
  else if task_name = "decompose_user_prompt" then
    match prims.extract_list response with
    | Option.some xs => Except.ok (PyValue.list (xs.map PyValue.str))
    | Option.none => Except.error PlannerError.malformedList
  else if task_name = "generate_instruction" then
    match prims.parse_json response with
    | Except.error e => Except.error (PlannerError.primitiveError e)
    | Except.ok generate_task_str =>
      match prims.json_repair_loads generate_task_str with
      | Except.error e => Except.error (PlannerError.primitiveError e)
      | Except.ok generate_task_json =>
        match pyGetItem generate_task_json "target" with
        | Except.error e => Except.error e
        | Except.ok generate_task =>
          match generate_task with
          | PyValue.str s => Except.ok (PyValue.str s)
          | v => Except.error (PlannerError.malformedField v)
  else if task_name = "mark_bounding_box" then
    match prims.parse_json response with
    | Except.error e => Except.error (PlannerError.primitiveError e)
    | Except.ok bbox_str =>
      match prims.json_repair_loads bbox_str with
      | Except.error e => Except.error (PlannerError.primitiveError e)
      | Except.ok bbox_json => Except.ok bbox_json
  else
    if pyIn "true" (pyLower response) then Except.ok (PyValue.bool true)
    else if pyIn "false" (pyLower response) then Except.ok (PyValue.bool false)
    else Except.error (PlannerError.malformedBoolean response)

/-- The full request_task dispatch: build the prompt (raising on an unknown
task name), assemble the conversation, obtain the completion service answer,
and decode it. The completion service is the external collaborator, passed
as a function from the conversation and token budget to the response text. -/
def request_task (prims : Primitives) (service : List Message → Nat → String)
    (task_name : String) (frame_path : Option String)
    (instruction : Option String) (max_token : Nat) :
    Except PlannerError PyValue :=
  match buildPrompt task_name instruction with
  | Except.error e => Except.error e
  | Except.ok prompt =>
    let messages := buildMessages prompt frame_path
    let response := service messages max_token
    decode prims task_name response

/-- The closed enumeration of the seven task kinds. -/
def taskKinds : List String :=
  [ "classify_user_prompt", "decompose_user_prompt", "generate_instruction",
    "mark_bounding_box", "check_grasp_success", "check_instruction_complete",
    "check_user_prompt_complete" ]

/-- Whether a Python value is a number (the numeric literals the bounding-box
coordinates are made of). -/
def isNumVal : PyValue → Bool
  | PyValue.int _ => true
  | _ => false

/-- Whether a Python value is a string. -/
def isStrVal : PyValue → Bool
  | PyValue.str _ => true
  | _ => false

/-- Stated from the spec wording of the TypedResult data model: a structured
bounding-box record, a JSON object carrying four numeric coordinates under
its bounding-box key together with a string label and a string description.
Both the spec field name bbox and the prompt field name bbox_2d are accepted
for the coordinates. -/
def specBBoxShape : PyValue → Bool
  | PyValue.dict kvs =>
    (match kvs.find? (fun kv => kv.fst == "bbox") with
     | Option.some kv =>
       (match kv.snd with
        | PyValue.list cs => cs.length == 4 && cs.all isNumVal
        | _ => false)
     | Option.none =>
       match kvs.find? (fun kv => kv.fst == "bbox_2d") with
       | Option.some kv =>
         (match kv.snd with
          | PyValue.list cs => cs.length == 4 && cs.all isNumVal
          | _ => false)
       | Option.none => false)
    && (match kvs.find? (fun kv => kv.fst == "label") with
        | Option.some kv => isStrVal kv.snd
        | Option.none => false)
    && (match kvs.find? (fun kv => kv.fst == "description") with
        | Option.some kv => isStrVal kv.snd
        | Option.none => false)
  | _ => false

/-- The fixed result shape the task protocol assigns to each task kind other
than mark_bounding_box: the TypeI/TypeII label for classification, a list
of strings for decomposition, a string for instruction generation, and a
plain boolean for the three check tasks. -/
def shapeOK (task_name : String) (v : PyValue) : Bool :=
  if task_name = "classify_user_prompt" then
    (match v with
     | PyValue.str s => s == "TypeI" || s == "TypeII"
     | _ => false)
  else if task_name = "decompose_user_prompt" then
    (match v with
     | PyValue.list xs => xs.all isStrVal
     | _ => false)
  else if task_name = "generate_instruction" then
    isStrVal v
  else
    (match v with
     | PyValue.bool _ => true
     | _ => false)

/-- Modelled from the spec: a concrete instance of the extraction primitives
(absent from src/), specified on the concrete texts exercised in this
development exactly as the contracts of spec section 6 dictate: the
decompose example text carries a bracketed list literal of two strings;
"no list here" carries none; each JSON text is its own most plausible JSON
substring and repairs to the evident structured value. -/
def mockPrims : Primitives where
  extract_list := fun s =>
    if s = "[\"red cup on left\", \"blue bowl on right\"]" then
      Option.some ["red cup on left", "blue bowl on right"]
    else Option.none
  parse_json := fun s => Except.ok s
  json_repair_loads := fun s =>
    if s = "\x7b\"analysis\": \"x\"\x7d" then
      Except.ok (PyValue.dict [("analysis", PyValue.str "x")])
    else if s = "\x7b\"target\": 42\x7d" then
      Except.ok (PyValue.dict [("target", PyValue.int 42)])
    else if s = "\x7b\"target\": \"the blue cube\"\x7d" then
      Except.ok (PyValue.dict [("target", PyValue.str "the blue cube")])
    else if s = "[1, 2]" then
      Except.ok (PyValue.list [PyValue.int 1, PyValue.int 2])
    else
      Except.error (PrimError.failure s)

/-- A completion service stub answering every conversation with "True". -/
def mockServiceTrue : List Message → Nat → String := fun _ _ => "True"

/-- A completion service stub answering every conversation with "False". -/
def mockServiceFalse : List Message → Nat → String := fun _ _ => "False"

/-- Whether a planner failure is the malformed-field ValueError of line 306. -/
def isMalformedFieldError : PlannerError → Bool
  | PlannerError.malformedField _ => true
  | _ => false

lemma append_ne_empty_left (a b : String) (h : a ≠ "") : a ++ b ≠ "" := by
  cases a with
  | mk la =>
    cases b with
    | mk lb =>
      intro heq
      apply h
      have hdata : la ++ lb = [] := congrArg String.data heq
      have hla : la = [] := (List.append_eq_nil.mp hdata).1
      rw [hla]

lemma pyGetItem_ne_unknownTaskKind (v : PyValue) (k t : String) :
    pyGetItem v k ≠ Except.error (PlannerError.unknownTaskKind t) := by
  unfold pyGetItem
  intro h
  split at h
  case h_1 =>
    split at h <;> simp_all
  case h_2 => simp_all

lemma decode_ne_unknownTaskKind (prims : Primitives) (tn resp t : String) :
    decode prims tn resp ≠ Except.error (PlannerError.unknownTaskKind t) := by
  unfold decode
  intro h
  repeat' split at h
  all_goals simp_all
  all_goals (exact pyGetItem_ne_unknownTaskKind _ _ _ (by assumption))

/-- C1: decoding a DecomposeUserPrompt response applies the list-extraction
primitive; when it yields a sequence of strings that sequence is returned
as-is with its order preserved, and otherwise decoding fails with the
malformed-list error. -/
theorem claim_C1 (prims : Primitives) (response : String) :
    decode prims "decompose_user_prompt" response =
      match prims.extract_list response with
      | Option.some xs => Except.ok (PyValue.list (xs.map PyValue.str))
      | Option.none => Except.error PlannerError.malformedList := rfl

/-- C4: classify_user_prompt decoding performs a case-insensitive substring
search for true then false, returning TypeI on true, TypeII on false, and
the malformed-boolean error when neither occurs; check_grasp_success,
check_instruction_complete and check_user_prompt_complete follow the same
rule returning a plain boolean, with the same failure when neither substring
is present. -/
theorem claim_C4 (prims : Primitives) (response : String) :
    (decode prims "classify_user_prompt" response =
      (if pyIn "true" (pyLower response) then Except.ok (PyValue.str "TypeI")
       else if pyIn "false" (pyLower response) then Except.ok (PyValue.str "TypeII")
       else Except.error (PlannerError.malformedBoolean response)))
  ∧ (decode prims "check_grasp_success" response =
      (if pyIn "true" (pyLower response) then Except.ok (PyValue.bool true)
       else if pyIn "false" (pyLower response) then Except.ok (PyValue.bool false)
       else Except.error (PlannerError.malformedBoolean response)))
  ∧ (decode prims "check_instruction_complete" response =
      (if pyIn "true" (pyLower response) then Except.ok (PyValue.bool true)
       else if pyIn "false" (pyLower response) then Except.ok (PyValue.bool false)
       else Except.error (PlannerError.malformedBoolean response)))
  ∧ (decode prims "check_user_prompt_complete" response =
      (if pyIn "true" (pyLower response) then Except.ok (PyValue.bool true)
       else if pyIn "false" (pyLower response) then Except.ok (PyValue.bool false)
       else Except.error (PlannerError.malformedBoolean response))) :=
  ⟨rfl, rfl, rfl, rfl⟩

/-- C9: for generate_instruction, check_grasp_success and
check_user_prompt_complete the instruction argument has no influence on the
built prompt text: any two instruction values yield identical prompts. -/
theorem claim_C9 (i1 i2 : Option String) :
    buildPrompt "generate_instruction" i1 = buildPrompt "generate_instruction" i2
  ∧ buildPrompt "check_grasp_success" i1 = buildPrompt "check_grasp_success" i2
  ∧ buildPrompt "check_user_prompt_complete" i1 =
      buildPrompt "check_user_prompt_complete" i2 :=
  ⟨rfl, rfl, rfl⟩



lemma decode_classify_eq (prims : Primitives) (response : String) :
    decode prims "classify_user_prompt" response =
      (if pyIn "true" (pyLower response) then Except.ok (PyValue.str "TypeI")
       else if pyIn "false" (pyLower response) then Except.ok (PyValue.str "TypeII")
       else Except.error (PlannerError.malformedBoolean response)) := rfl

lemma decode_decompose_eq (prims : Primitives) (response : String) :
    decode prims "decompose_user_prompt" response =
      (match prims.extract_list response with
       | Option.some xs => Except.ok (PyValue.list (xs.map PyValue.str))
       | Option.none => Except.error PlannerError.malformedList) := rfl

lemma decode_generate_eq (prims : Primitives) (response : String) :
    decode prims "generate_instruction" response =
      (match prims.parse_json response with
       | Except.error e => Except.error (PlannerError.primitiveError e)
       | Except.ok gs =>
         match prims.json_repair_loads gs with
         | Except.error e => Except.error (PlannerError.primitiveError e)
         | Except.ok gj =>
           match pyGetItem gj "target" with
           | Except.error e => Except.error e
           | Except.ok gt =>
             match gt with
             | PyValue.str g => Except.ok (PyValue.str g)
             | v => Except.error (PlannerError.malformedField v)) := rfl

lemma decode_mark_eq (prims : Primitives) (response : String) :
    decode prims "mark_bounding_box" response =
      (match prims.parse_json response with
       | Except.error e => Except.error (PlannerError.primitiveError e)
       | Except.ok bs =>
         match prims.json_repair_loads bs with
         | Except.error e => Except.error (PlannerError.primitiveError e)
         | Except.ok bj => Except.ok bj) := rfl

lemma decode_check_grasp_eq (prims : Primitives) (response : String) :
    decode prims "check_grasp_success" response =
      (if pyIn "true" (pyLower response) then Except.ok (PyValue.bool true)
       else if pyIn "false" (pyLower response) then Except.ok (PyValue.bool false)
       else Except.error (PlannerError.malformedBoolean response)) := rfl

lemma decode_check_instruction_eq (prims : Primitives) (response : String) :
    decode prims "check_instruction_complete" response =
      (if pyIn "true" (pyLower response) then Except.ok (PyValue.bool true)
       else if pyIn "false" (pyLower response) then Except.ok (PyValue.bool false)
       else Except.error (PlannerError.malformedBoolean response)) := rfl

lemma decode_check_user_prompt_eq (prims : Primitives) (response : String) :
    decode prims "check_user_prompt_complete" response =
      (if pyIn "true" (pyLower response) then Except.ok (PyValue.bool true)
       else if pyIn "false" (pyLower response) then Except.ok (PyValue.bool false)
       else Except.error (PlannerError.malformedBoolean response)) := rfl

lemma all_isStrVal_map (xs : List String) :
    (xs.map PyValue.str).all isStrVal = true := by
  induction xs with
  | nil => rfl
  | cons a as ih => simp [List.all_cons, isStrVal, ih]

/-- C3: for each boolean-decoding task kind, a response whose lower-cased
text contains both the substring true and the substring false decodes to the
true-valued result (the TypeI label for classification, the boolean true for
the check tasks), irrespective of the positions of the two substrings. -/
theorem claim_C3 (prims : Primitives) (task response : String)
    (hmem : task = "classify_user_prompt" ∨ task = "check_grasp_success" ∨
      task = "check_instruction_complete" ∨ task = "check_user_prompt_complete")
    (ht : pyIn "true" (pyLower response) = true)
    (hf : pyIn "false" (pyLower response) = true) :
    decode prims task response =
      (if task = "classify_user_prompt" then Except.ok (PyValue.str "TypeI")
       else Except.ok (PyValue.bool true)) := by
  have hf2 := hf
  rcases hmem with h | h | h | h <;> subst h <;> simp [decode, ht]

/-- C3 witness: a crafted response in which false occurs strictly before true
still decodes to the true-valued TypeI label. -/
theorem claim_C3_witness :
    decode mockPrims "classify_user_prompt" "False at first glance, but really True" =
      Except.ok (PyValue.str "TypeI") :=
  claim_C3 mockPrims "classify_user_prompt" "False at first glance, but really True"
    (Or.inl rfl) rfl rfl

/-- C2 counterexample: on a repaired JSON object lacking the target field the
decoder raises the Python KeyError of the dict subscript, not the
malformed-field ValueError the claim names. -/
theorem claim_C2_counterexample :
    decode mockPrims "generate_instruction" "\x7b\"analysis\": \"x\"\x7d" =
      Except.error (PlannerError.keyError "target")
  ∧ (match decode mockPrims "generate_instruction" "\x7b\"analysis\": \"x\"\x7d" with
     | Except.error e => isMalformedFieldError e
     | _ => false) = false :=
  ⟨rfl, rfl⟩

/-- C2 amended: once extraction and repair yield a JSON object, decoding
GenerateInstruction returns the target value when it is a string, fails with
the malformed-field error naming the offending value when target is present
but not a string, and fails with a key-lookup error (KeyError) rather than
the malformed-field error when target is absent. -/
theorem claim_C2 (prims : Primitives) (response s : String)
    (kvs : List (String × PyValue))
    (h1 : prims.parse_json response = Except.ok s)
    (h2 : prims.json_repair_loads s = Except.ok (PyValue.dict kvs)) :
    decode prims "generate_instruction" response =
      (match kvs.find? (fun kv => kv.fst == "target") with
       | Option.some kv =>
         (match kv.snd with
          | PyValue.str g => Except.ok (PyValue.str g)
          | v => Except.error (PlannerError.malformedField v))
       | Option.none => Except.error (PlannerError.keyError "target")) := by
  rw [decode_generate_eq]
  simp only [h1, h2]
  cases hfind : kvs.find? (fun kv => kv.fst == "target") with
  | none => simp [pyGetItem, hfind]
  | some kv =>
    rcases kv with ⟨k, v⟩
    cases v <;> simp [pyGetItem, hfind]

/-- C2 witness: a JSON object whose target field holds the number 42 decodes
to the malformed-field failure naming that value. -/
theorem claim_C2_witness :
    decode mockPrims "generate_instruction" "\x7b\"target\": 42\x7d" =
      Except.error (PlannerError.malformedField (PyValue.int 42)) :=
  claim_C2 mockPrims "\x7b\"target\": 42\x7d" "\x7b\"target\": 42\x7d"
    [("target", PyValue.int 42)] rfl rfl

/-- C5 counterexample: a mark_bounding_box response that repairs to the JSON
array [1, 2] is returned as-is by the decoder, and that returned value is
not a bounding-box record of the shape the claim fixes (bbox coordinates,
label, description). -/
theorem claim_C5_counterexample :
    decode mockPrims "mark_bounding_box" "[1, 2]" =
      Except.ok (PyValue.list [PyValue.int 1, PyValue.int 2])
  ∧ specBBoxShape (PyValue.list [PyValue.int 1, PyValue.int 2]) = false :=
  ⟨rfl, rfl⟩

/-- C5 amended: every value successfully returned by decoding has the fixed
shape assigned to its task kind for the six kinds other than
mark_bounding_box (the TypeI/TypeII label, a list of strings, a string, or a
boolean); mark_bounding_box returns the repaired JSON value without shape
validation, so its results need not be bounding-box records. -/
theorem claim_C5 (prims : Primitives) (task response : String) (v : PyValue)
    (hmem : task = "classify_user_prompt" ∨ task = "decompose_user_prompt" ∨
      task = "generate_instruction" ∨ task = "check_grasp_success" ∨
      task = "check_instruction_complete" ∨ task = "check_user_prompt_complete")
    (hok : decode prims task response = Except.ok v) :
    shapeOK task v = true := by
  rcases hmem with h | h | h | h | h | h <;> subst h
  · rw [decode_classify_eq] at hok
    split at hok
    · injection hok with hv
      subst hv
      rfl
    · split at hok
      · injection hok with hv
        subst hv
        rfl
      · exact absurd hok (by simp)
  · rw [decode_decompose_eq] at hok
    cases hx : prims.extract_list response with
    | some xs =>
      rw [hx] at hok
      injection hok with hv
      subst hv
      exact all_isStrVal_map xs
    | none =>
      rw [hx] at hok
      exact absurd hok (by simp)
  · rw [decode_generate_eq] at hok
    repeat' split at hok
    all_goals simp_all
    subst hok
    rfl
  · rw [decode_check_grasp_eq] at hok
    split at hok
    · injection hok with hv
      subst hv
      rfl
    · split at hok
      · injection hok with hv
        subst hv
        rfl
      · exact absurd hok (by simp)
  · rw [decode_check_instruction_eq] at hok
    split at hok
    · injection hok with hv
      subst hv
      rfl
    · split at hok
      · injection hok with hv
        subst hv
        rfl
      · exact absurd hok (by simp)
  · rw [decode_check_user_prompt_eq] at hok
    split at hok
    · injection hok with hv
      subst hv
      rfl
    · split at hok
      · injection hok with hv
        subst hv
        rfl
      · exact absurd hok (by simp)

/-- C5 witness: a TypeI classification result has the shape fixed for the
classify_user_prompt task kind. -/
theorem claim_C5_witness : shapeOK "classify_user_prompt" (PyValue.str "TypeI") = true :=
  claim_C5 mockPrims "classify_user_prompt" "True: yes" (PyValue.str "TypeI")
    (Or.inl rfl) rfl

/-- C6: a task-kind value outside the closed seven-element enumeration makes
request_task fail with the unknown-task-kind error, and a value inside the
enumeration never produces that error. -/
theorem claim_C6 (prims : Primitives) (service : List Message → Nat → String)
    (task : String) (frame instruction : Option String) (mt : Nat) :
    (¬ task ∈ taskKinds →
      request_task prims service task frame instruction mt =
        Except.error (PlannerError.unknownTaskKind task))
  ∧ (task ∈ taskKinds → ∀ t,
      request_task prims service task frame instruction mt ≠
        Except.error (PlannerError.unknownTaskKind t)) := by
  constructor
  · intro hmem
    simp only [taskKinds, List.mem_cons, List.not_mem_nil, or_false, not_or] at hmem
    obtain ⟨h1, h2, h3, h4, h5, h6, h7⟩ := hmem
    simp [request_task, buildPrompt, h1, h2, h3, h4, h5, h6, h7]
  · intro hmem t
    simp only [taskKinds, List.mem_cons, List.not_mem_nil, or_false] at hmem
    rcases hmem with h | h | h | h | h | h | h <;> subst h <;>
      exact fun hcontra => decode_ne_unknownTaskKind _ _ _ _ hcontra

/-- C6 witness: the task name bogus_task fails with the unknown-task-kind
error while classify_user_prompt never produces it. -/
theorem claim_C6_witness :
    request_task mockPrims mockServiceTrue "bogus_task" Option.none Option.none 218 =
      Except.error (PlannerError.unknownTaskKind "bogus_task")
  ∧ request_task mockPrims mockServiceTrue "classify_user_prompt" Option.none Option.none 218 ≠
      Except.error (PlannerError.unknownTaskKind "classify_user_prompt") :=
  ⟨(claim_C6 mockPrims mockServiceTrue "bogus_task" Option.none Option.none 218).1
      (by decide),
   (claim_C6 mockPrims mockServiceTrue "classify_user_prompt" Option.none Option.none 218).2
      (by decide) "classify_user_prompt"⟩

/-- C7: for every task kind in the enumeration the built conversation is the
system turn carrying exactly the fixed assistant-framing text followed by
the user turn whose prompt text is non-empty. -/
theorem claim_C7 (task : String) (instruction frame_path : Option String)
    (hmem : task ∈ taskKinds) :
    ∃ prompt rest, buildPrompt task instruction = Except.ok prompt ∧ prompt ≠ "" ∧
      buildMessages prompt frame_path =
        [ { role := "system",
            content := [ContentItem.text "You are a helpful assistant."] },
          { role := "user", content := ContentItem.text prompt :: rest } ] := by
  simp only [taskKinds, List.mem_cons, List.not_mem_nil, or_false] at hmem
  rcases hmem with h | h | h | h | h | h | h <;> subst h
  · refine ⟨_, _, rfl, ?_, rfl⟩
    unfold prompt_classify_user_prompt
    apply append_ne_empty_left
    apply append_ne_empty_left
    decide
  · refine ⟨_, _, rfl, ?_, rfl⟩
    unfold prompt_decompose_user_prompt
    apply append_ne_empty_left
    apply append_ne_empty_left
    decide
  · refine ⟨_, _, rfl, ?_, rfl⟩
    unfold prompt_generate_instruction
    decide
  · refine ⟨_, _, rfl, ?_, rfl⟩
    unfold prompt_mark_bounding_box
    apply append_ne_empty_left
    apply append_ne_empty_left
    decide
  · refine ⟨_, _, rfl, ?_, rfl⟩
    unfold prompt_check_grasp_success
    decide
  · refine ⟨_, _, rfl, ?_, rfl⟩
    unfold prompt_check_instruction_complete
    apply append_ne_empty_left
    apply append_ne_empty_left
    decide
  · refine ⟨_, _, rfl, ?_, rfl⟩
    unfold prompt_check_user_prompt_complete
    decide

/-- C7 witness: the check_grasp_success conversation with no instruction and
no image is the fixed system turn followed by a non-empty user prompt. -/
theorem claim_C7_witness :
    ∃ prompt rest,
      buildPrompt "check_grasp_success" Option.none = Except.ok prompt ∧ prompt ≠ "" ∧
      buildMessages prompt Option.none =
        [ { role := "system",
            content := [ContentItem.text "You are a helpful assistant."] },
          { role := "user", content := ContentItem.text prompt :: rest } ] :=
  claim_C7 "check_grasp_success" Option.none Option.none (by decide)

/-- C8: for the four instruction-embedding task kinds, supplying the
language empty-value marker as the instruction interpolates the literal
placeholder word None at the interpolation point: the built prompt equals
the prompt built from the literal string None, and contains that word. -/
theorem claim_C8 (task : String)
    (hmem : task = "classify_user_prompt" ∨ task = "decompose_user_prompt" ∨
      task = "mark_bounding_box" ∨ task = "check_instruction_complete") :
    buildPrompt task Option.none = buildPrompt task (Option.some "None")
  ∧ ∃ prompt, buildPrompt task Option.none = Except.ok prompt ∧
      pyIn "None" prompt = true := by
  rcases hmem with h | h | h | h <;> subst h <;> exact ⟨rfl, _, rfl, by decide⟩

/-- C8 witness: with no instruction, the check_instruction_complete prompt
carries the literal word None where the instruction is interpolated. -/
theorem claim_C8_witness :
    buildPrompt "check_instruction_complete" Option.none =
      buildPrompt "check_instruction_complete" (Option.some "None")
  ∧ ∃ prompt, buildPrompt "check_instruction_complete" Option.none = Except.ok prompt ∧
      pyIn "None" prompt = true :=
  claim_C8 "check_instruction_complete" (Or.inr (Or.inr (Or.inr rfl)))

/-- C10: on a task-kind value outside the seven defined kinds the failure is
raised before any conversation is assembled or any completion request is
sent: the result is the unknown-task-kind error and is identical for any
two completion services and token budgets. -/
theorem claim_C10 (prims : Primitives) (s1 s2 : List Message → Nat → String)
    (task : String) (frame instruction : Option String) (mt1 mt2 : Nat)
    (hmem : ¬ task ∈ taskKinds) :
    request_task prims s1 task frame instruction mt1 =
      Except.error (PlannerError.unknownTaskKind task)
  ∧ request_task prims s1 task frame instruction mt1 =
      request_task prims s2 task frame instruction mt2 := by
  simp only [taskKinds, List.mem_cons, List.not_mem_nil, or_false, not_or] at hmem
  obtain ⟨h1, h2, h3, h4, h5, h6, h7⟩ := hmem
  constructor
  · simp [request_task, buildPrompt, h1, h2, h3, h4, h5, h6, h7]
  · simp [request_task, buildPrompt, h1, h2, h3, h4, h5, h6, h7]

/-- C10 witness: the undefined task name segment_objects yields the
unknown-task-kind error and the result is independent of which completion
service and token budget would have been used. -/
theorem claim_C10_witness :
    request_task mockPrims mockServiceTrue "segment_objects" Option.none Option.none 218 =
      Except.error (PlannerError.unknownTaskKind "segment_objects")
  ∧ request_task mockPrims mockServiceTrue "segment_objects" Option.none Option.none 218 =
      request_task mockPrims mockServiceFalse "segment_objects" Option.none Option.none 100 :=
  claim_C10 mockPrims mockServiceTrue mockServiceFalse "segment_objects"
    Option.none Option.none 218 100 (by decide)

end DexGraspVLA
